import Mathlib

/-!
Verification of the quest-tracking plugin in `src/packet-rust/src/lib.rs`.

The plugin exposes two entry points, `init` and `on_visit`, and interacts with
its host only through four imported calls (`register_item`, `register_task`,
`update_task`, `notify_player`).  We embed each entry point as the list of host
calls it issues (the plugin itself keeps no state).  The host-managed quest
ledger is not part of the repository's sources, so its state machine is
modelled from the spec (sections 4.1, 4.2 and 7) and the traces are replayed
against it.
-/

/-- Task status, mirroring `engine-types.status` used by the plugin.
Only `Pending` and `Completed` appear in the source. -/
inductive Status where
  | Pending
  | Completed
deriving DecidableEq

/-- One imported host call, mirroring the four functions of
`component:quest-v1` that `lib.rs` invokes. -/
inductive HostCall where
  | register_item (id url label kind : String)
  | register_task (quest_id task_id description : String)
  | update_task (quest_id task_id : String) (status : Status)
  | notify_player (message : String)
deriving DecidableEq

/-- Does the first character list occur at the head of the second? -/
def leadsWith : List Char → List Char → Bool
  | [], _ => true
  | _ :: _, [] => false
  | a :: as, b :: bs => a == b && leadsWith as bs

/-- Does `pat` occur as a contiguous run somewhere in the list? -/
def hasSub (pat : List Char) : List Char → Bool
  | [] => pat.isEmpty
  | b :: bs => leadsWith pat (b :: bs) || hasSub pat bs

/-- Rust `str::contains` with a string pattern: substring containment,
byte-for-byte (hence case-sensitive).  Modelled on the character list. -/
def strContains (s pat : String) : Bool :=
  hasSub pat.toList s.toList

namespace QuestPacket

/-- The trace of host calls issued by `QuestPacket::init` in `lib.rs`:
register the google item, register the task, notify the player. -/
def init : List HostCall :=
  [ .register_item "google-item" "https://google.com" "Visit Google" "webpage",
    .register_task "quest-1" "task-1" "Visit https://google.com",
    .notify_player "Rust Quest Started: Visit Google!" ]

/-- The trace of host calls issued by `QuestPacket::on_visit(url)` in
`lib.rs`: if the url contains "google.com", complete the task and notify;
otherwise do nothing. -/
def on_visit (url : String) : List HostCall :=
  if strContains url "google.com" then
    [ .update_task "quest-1" "task-1" .Completed,
      .notify_player "Rust Task Complete: Google visited!" ]
  else []

end QuestPacket

/-- A registered content item (url, label, kind), keyed by id in the
registry. -/
structure Item where
  url : String
  label : String
  kind : String
deriving DecidableEq

/-- A registered task (description and status), keyed by
(quest_id, task_id) in the ledger. -/
structure TaskEntry where
  description : String
  status : Status
deriving DecidableEq

/-- Modelled from the spec: the host-managed state the plugin's calls act
on (the host implementation is outside this repository's sources).  Items
and tasks are keyed maps (spec section 4.1/4.2), notifications accumulate in
order (section 6), and `errors` records each NotFound surfaced by
`update_task` (section 7). -/
structure HostState where
  items : List (String × Item)
  tasks : List ((String × String) × TaskEntry)
  notifications : List String
  errors : List (String × String)
deriving DecidableEq

/-- Insert-or-replace into an association list: the new binding shadows and
removes any previous binding of the same key. -/
def insertReplace {α β : Type} [DecidableEq α] (k : α) (v : β)
    (l : List (α × β)) : List (α × β) :=
  (k, v) :: l.filter (fun p => decide (p.1 ≠ k))

/-- Modelled from the spec: the host's reaction to one call.
`register_item` and `register_task` insert-or-replace (section 4.1/4.2,
registration is idempotent-by-replacement, tasks start Pending);
`update_task` sets the status of an existing pair and surfaces NotFound
without touching the table otherwise (sections 4.2 and 7); `notify_player`
appends the message (section 6). -/
def applyCall (s : HostState) : HostCall → HostState
  | .register_item id url label kind =>
      { s with items := insertReplace id ⟨url, label, kind⟩ s.items }
  | .register_task qid tid desc =>
      { s with tasks := insertReplace (qid, tid) ⟨desc, .Pending⟩ s.tasks }
  | .update_task qid tid st =>
      if s.tasks.any (fun p => p.1 == (qid, tid)) then
        { s with tasks := s.tasks.map (fun p =>
            if p.1 = (qid, tid) then (p.1, { p.2 with status := st }) else p) }
      else
        { s with errors := s.errors ++ [(qid, tid)] }
  | .notify_player msg =>
      { s with notifications := s.notifications ++ [msg] }

/-- Replay a trace of host calls against the host state. -/
def run (s : HostState) (cs : List HostCall) : HostState :=
  cs.foldl applyCall s

/-- The host state before any call. -/
def initialState : HostState :=
  { items := [], tasks := [], notifications := [], errors := [] }

/-- Look up the task registered under (quest_id, task_id). -/
def lookupTask (s : HostState) (qid tid : String) : Option TaskEntry :=
  (s.tasks.find? (fun p => p.1 == (qid, tid))).map (·.2)

/-- Modelled from the spec (section 4.2): a quest is complete iff it has at
least one registered task and every task with that quest_id is Completed. -/
def questComplete (s : HostState) (qid : String) : Bool :=
  let ts := s.tasks.filter (fun p => decide (p.1.1 = qid))
  !ts.isEmpty && ts.all (fun p => p.2.status == Status.Completed)

/-- Number of `notify_player` calls in a trace. -/
def countNotifyCalls (cs : List HostCall) : Nat :=
  cs.countP (fun c => match c with | .notify_player _ => true | _ => false)

/-- Calls that `on_visit` is allowed to issue: the Completed transition on
("quest-1","task-1") or the task-complete notification, nothing else. -/
def visitCallOk : HostCall → Bool
  | .update_task qid tid st =>
      qid == "quest-1" && tid == "task-1" && st == Status.Completed
  | .notify_player msg => msg == "Rust Task Complete: Google visited!"
  | _ => false

/-- Iterate `init` n times against the host state. -/
def iterInit (s : HostState) : Nat → HostState
  | 0 => s
  | n + 1 => run (iterInit s n) QuestPacket.init

theorem filterIdem {α : Type} (f : α → Bool) (l : List α) :
    (l.filter f).filter f = l.filter f := by
  induction l with
  | nil => rfl
  | cons a l ih =>
    by_cases h : f a = true
    · simp [List.filter_cons, h, ih]
    · simp [List.filter_cons, h, ih]

theorem insertReplace_idem {α β : Type} [DecidableEq α] (k : α) (v : β)
    (l : List (α × β)) :
    insertReplace k v (insertReplace k v l) = insertReplace k v l := by
  simp [insertReplace, List.filter_cons, filterIdem]

theorem run_init (s : HostState) :
    run s QuestPacket.init =
      { items := insertReplace "google-item"
          ⟨"https://google.com", "Visit Google", "webpage"⟩ s.items,
        tasks := insertReplace ("quest-1", "task-1")
          ⟨"Visit https://google.com", .Pending⟩ s.tasks,
        notifications := s.notifications ++ ["Rust Quest Started: Visit Google!"],
        errors := s.errors } := rfl

theorem iterInit_items (s : HostState) (n : Nat) :
    (iterInit s (n + 1)).items =
      insertReplace "google-item"
        ⟨"https://google.com", "Visit Google", "webpage"⟩ s.items := by
  induction n with
  | zero => rfl
  | succ n ih =>
    show (run (iterInit s (n + 1)) QuestPacket.init).items = _
    rw [run_init, ih, insertReplace_idem]

theorem iterInit_tasks (s : HostState) (n : Nat) :
    (iterInit s (n + 1)).tasks =
      insertReplace ("quest-1", "task-1")
        ⟨"Visit https://google.com", .Pending⟩ s.tasks := by
  induction n with
  | zero => rfl
  | succ n ih =>
    show (run (iterInit s (n + 1)) QuestPacket.init).tasks = _
    rw [run_init, ih, insertReplace_idem]

theorem iterInit_count (s : HostState) (n : Nat) :
    (iterInit s n).notifications.count "Rust Quest Started: Visit Google!" =
      s.notifications.count "Rust Quest Started: Visit Google!" + n := by
  induction n with
  | zero => rfl
  | succ n ih =>
    show (run (iterInit s n) QuestPacket.init).notifications.count _ = _
    rw [run_init]
    simp only [List.count_append, ih]
    simp [Nat.add_assoc]

/-- Claim C1: for every url containing "google.com" as a substring,
`on_visit(url)` issues the Completed transition on ("quest-1","task-1")
followed by exactly one notification, whose text is
"Rust Task Complete: Google visited!". -/
theorem c1_on_visit_match (url : String)
    (h : strContains url "google.com" = true) :
    QuestPacket.on_visit url =
      [ .update_task "quest-1" "task-1" .Completed,
        .notify_player "Rust Task Complete: Google visited!" ] ∧
    countNotifyCalls (QuestPacket.on_visit url) = 1 := by
  have e : QuestPacket.on_visit url =
      [ .update_task "quest-1" "task-1" .Completed,
        .notify_player "Rust Task Complete: Google visited!" ] := by
    simp [QuestPacket.on_visit, h]
  exact ⟨e, by rw [e]; rfl⟩

theorem c1_on_visit_match_witness :
    strContains "https://google.com" "google.com" = true ∧
    (QuestPacket.on_visit "https://google.com" =
      [ .update_task "quest-1" "task-1" .Completed,
        .notify_player "Rust Task Complete: Google visited!" ] ∧
     countNotifyCalls (QuestPacket.on_visit "https://google.com") = 1) :=
  ⟨by decide, c1_on_visit_match "https://google.com" (by decide)⟩

/-- Claim C2: for every url not containing "google.com", `on_visit(url)`
issues no host call at all, and replaying it leaves any host state
unchanged. -/
theorem c2_on_visit_nomatch (url : String) (s : HostState)
    (h : strContains url "google.com" = false) :
    QuestPacket.on_visit url = [] ∧ run s (QuestPacket.on_visit url) = s := by
  have e : QuestPacket.on_visit url = [] := by
    simp [QuestPacket.on_visit, h]
  exact ⟨e, by rw [e]; rfl⟩

theorem c2_on_visit_nomatch_witness :
    strContains "https://example.com" "google.com" = false ∧
    (QuestPacket.on_visit "https://example.com" = [] ∧
     run initialState (QuestPacket.on_visit "https://example.com") = initialState) :=
  ⟨by decide, c2_on_visit_nomatch "https://example.com" initialState (by decide)⟩

/-- The host state after `init` runs from the empty state. -/
def afterInit : HostState :=
  run initialState QuestPacket.init

/-- The state after a subsequent visit of a google url. -/
def afterGoogleVisit : HostState :=
  run afterInit (QuestPacket.on_visit "https://google.com/search?q=x")

/-- The state after a further visit of an unrelated url. -/
def afterExampleVisit : HostState :=
  run afterGoogleVisit (QuestPacket.on_visit "https://example.com")

/-- Claim C3: end-to-end scenario.  After `init`, the registry holds exactly
the item "google-item" with url "https://google.com" and task
("quest-1","task-1") is Pending; after `on_visit` of a google url the task is
Completed with exactly one task-complete notification; a later `on_visit` of
"https://example.com" changes nothing. -/
theorem c3_end_to_end :
    afterInit.items =
      [("google-item", ⟨"https://google.com", "Visit Google", "webpage"⟩)] ∧
    lookupTask afterInit "quest-1" "task-1" =
      some ⟨"Visit https://google.com", .Pending⟩ ∧
    lookupTask afterGoogleVisit "quest-1" "task-1" =
      some ⟨"Visit https://google.com", .Completed⟩ ∧
    afterGoogleVisit.notifications.count "Rust Task Complete: Google visited!" = 1 ∧
    afterExampleVisit = afterGoogleVisit := by
  decide

/-- Claim C4: `init` performs exactly three host calls in order —
register_item("google-item","https://google.com","Visit Google","webpage"),
register_task("quest-1","task-1","Visit https://google.com") (so the task
starts Pending), then exactly one quest-started notification. -/
theorem c4_init_trace :
    QuestPacket.init =
      [ .register_item "google-item" "https://google.com" "Visit Google" "webpage",
        .register_task "quest-1" "task-1" "Visit https://google.com",
        .notify_player "Rust Quest Started: Visit Google!" ] ∧
    countNotifyCalls QuestPacket.init = 1 ∧
    lookupTask (run initialState QuestPacket.init) "quest-1" "task-1" =
      some ⟨"Visit https://google.com", .Pending⟩ := by
  decide

/-- Claim C5: matching is substring containment, not host comparison —
a url whose host is "attacker.example" but which carries "google.com" as a
path segment still triggers the transition and the notification. -/
theorem c5_substring_false_positive :
    strContains "https://attacker.example/google.com/page" "google.com" = true ∧
    leadsWith "https://google.com".toList
      "https://attacker.example/google.com/page".toList = false ∧
    QuestPacket.on_visit "https://attacker.example/google.com/page" =
      [ .update_task "quest-1" "task-1" .Completed,
        .notify_player "Rust Task Complete: Google visited!" ] := by
  decide

/-- Claim C6: when ("quest-1","task-1") was never registered, the NotFound
from `update_task` is surfaced (recorded in the error channel) rather than
swallowed, the task table is untouched, and the rest of `on_visit` still
runs: the task-complete notification is still emitted. -/
theorem c6_notfound_skipped (s : HostState) (url : String)
    (hmatch : strContains url "google.com" = true)
    (hmiss : s.tasks.any (fun p => p.1 == ("quest-1", "task-1")) = false) :
    (run s (QuestPacket.on_visit url)).errors = s.errors ++ [("quest-1", "task-1")] ∧
    (run s (QuestPacket.on_visit url)).tasks = s.tasks ∧
    (run s (QuestPacket.on_visit url)).notifications =
      s.notifications ++ ["Rust Task Complete: Google visited!"] := by
  simp only [QuestPacket.on_visit, hmatch, if_true]
  simp [run, applyCall, hmiss]

theorem c6_notfound_skipped_witness :
    strContains "https://google.com" "google.com" = true ∧
    initialState.tasks.any (fun p => p.1 == ("quest-1", "task-1")) = false ∧
    ((run initialState (QuestPacket.on_visit "https://google.com")).errors =
        initialState.errors ++ [("quest-1", "task-1")] ∧
     (run initialState (QuestPacket.on_visit "https://google.com")).tasks =
        initialState.tasks ∧
     (run initialState (QuestPacket.on_visit "https://google.com")).notifications =
        initialState.notifications ++ ["Rust Task Complete: Google visited!"]) :=
  ⟨by decide, by decide,
    c6_notfound_skipped initialState "https://google.com" (by decide) (by decide)⟩

/-- Claim C7: `init` is not idempotent for notifications — n calls emit n
quest-started notifications — while its registration effects are
idempotent-by-replacement: items and tasks after n+1 calls equal those after
one call. -/
theorem c7_init_not_idempotent (s : HostState) (n : Nat) :
    (iterInit s n).notifications.count "Rust Quest Started: Visit Google!" =
      s.notifications.count "Rust Quest Started: Visit Google!" + n ∧
    (iterInit s (n + 1)).items = (iterInit s 1).items ∧
    (iterInit s (n + 1)).tasks = (iterInit s 1).tasks :=
  ⟨iterInit_count s n,
   by rw [iterInit_items s n]; rfl,
   by rw [iterInit_tasks s n]; rfl⟩

/-- Claim C8: the quest-completion predicate is true iff the quest has at
least one registered task and every task under that quest_id is Completed
(hence false for an empty quest and false for a partially-completed one). -/
theorem c8_quest_complete_iff (s : HostState) (qid : String) :
    questComplete s qid = true ↔
      ((∃ p ∈ s.tasks, p.1.1 = qid) ∧
       ∀ p ∈ s.tasks, p.1.1 = qid → p.2.status = Status.Completed) := by
  simp [questComplete]
  intro x x1 hx
  constructor
  · intro h a b c hab ha
    exact (h a b c hab).resolve_left (fun hn => hn ha)
  · intro h a b c hab
    by_cases ha : a = qid
    · exact Or.inr (h a b c hab ha)
    · exact Or.inl ha

/-- Claim C9: the url match is case-sensitive — a url containing
"GOOGLE.COM" but not the lowercase "google.com" produces no host call. -/
theorem c9_case_sensitive (url : String)
    (_hup : strContains url "GOOGLE.COM" = true)
    (hlow : strContains url "google.com" = false) :
    QuestPacket.on_visit url = [] := by
  simp [QuestPacket.on_visit, hlow]

theorem c9_case_sensitive_witness :
    strContains "https://GOOGLE.COM/home" "GOOGLE.COM" = true ∧
    strContains "https://GOOGLE.COM/home" "google.com" = false ∧
    QuestPacket.on_visit "https://GOOGLE.COM/home" = [] :=
  ⟨by decide, by decide,
    c9_case_sensitive "https://GOOGLE.COM/home" (by decide) (by decide)⟩

/-- Claim C10: for every url, every call `on_visit` issues is either the
Completed transition on ("quest-1","task-1") or the task-complete
notification — never register_item, never register_task, never a status
other than Completed. -/
theorem c10_on_visit_only_updates (url : String) :
    (QuestPacket.on_visit url).all visitCallOk = true := by
  unfold QuestPacket.on_visit
  split
  · rfl
  · rfl
